import Mathlib

/-!
Verification of the gridrecall unified persistence layer.

The definitions below are a shallow embedding of the statistics and settings
utility modules (`gameStats.ts`, `pwaStats.ts`, `gameSettings.ts`,
`unifiedStatsManager.ts`).  JavaScript numbers that the code only ever uses as
integers are modelled as `Nat` (counters, percentages) or `Int` (settings
values, which user input may make negative).  The JSON string layer is modelled
at parse granularity: a payload is either the successfully parsed statistics
map or an unparseable string; `JSON.stringify` of a statistics map parses back
to the same map, so the export operation yields the `ok` payload of the current
map.  Browser stores are modelled as explicit state: the localStorage slot as
an `Option` of its parsed content, the IndexedDB object store as its list of
keyed entries.
-/

/-- Statistics record: `GameStats` from `gameStats.ts` / `pwaStats.ts`. -/
structure GameStats where
  totalChallenges : Nat
  recentAnswers : List Bool
  maxConsecutiveCorrect : Nat
  currentConsecutiveCorrect : Nat
  bestAccuracy : Nat
  deriving DecidableEq, Repr

/-- Settings record: `GameSettings` from `gameSettings.ts` (five fields; the
four-field `GameSettings` interface of `gameStats.ts` is the structural subset
actually read by the fingerprint function). -/
structure GameSettings where
  gridSize : Int
  showTime : Int
  answerTime : Int
  numActiveCells : Int
  targetConsecutive : Int
  deriving DecidableEq, Repr

/-- Sliding-window bound from `gameStats.ts`: `MAX_RECENT_ANSWERS = 100`. -/
def MAX_RECENT_ANSWERS : Nat := 100

/-- Zeroed statistics record from `initializeStats` in `gameStats.ts`. -/
def initializeStats : GameStats :=
  { totalChallenges := 0
    recentAnswers := []
    maxConsecutiveCorrect := 0
    currentConsecutiveCorrect := 0
    bestAccuracy := 0 }

/-- Configuration fingerprint from `generateSettingsKey` in `gameStats.ts`:
the template literal `gridSize-showTime-answerTime-numActiveCells`.
`targetConsecutive` is not read. -/
def generateSettingsKey (settings : GameSettings) : String :=
  toString settings.gridSize ++ "-" ++ toString settings.showTime ++ "-" ++
    toString settings.answerTime ++ "-" ++ toString settings.numActiveCells

/-- Window accuracy from `calculateAccuracy` in `gameStats.ts`:
`Math.round((correctCount / length) * 100)`, and `0` for an empty window.
`Math.round` on a nonnegative value rounds half up, so the result is
`⌊(100 * correctCount / length) + 1/2⌋ = (200 * correctCount + length) / (2 * length)`
in exact integer arithmetic. -/
def calculateAccuracy (stats : GameStats) : Nat :=
  if stats.recentAnswers.length = 0 then 0
  else
    let correctCount := (stats.recentAnswers.filter (fun answer => answer)).length
    (200 * correctCount + stats.recentAnswers.length) / (2 * stats.recentAnswers.length)

/-- Aggregator update from `updateStats` in `gameStats.ts` (duplicated verbatim
in `pwaStats.ts`): append the outcome, drop the oldest entry (`Array.shift`)
once the window exceeds `MAX_RECENT_ANSWERS`, recompute streak, best streak and
best accuracy. -/
def updateStats (stats : GameStats) (isCorrect : Bool) : GameStats :=
  let newRecentAnswers0 := stats.recentAnswers ++ [isCorrect]
  let newRecentAnswers :=
    if MAX_RECENT_ANSWERS < newRecentAnswers0.length then newRecentAnswers0.tail
    else newRecentAnswers0
  let newCurrentConsecutiveCorrect :=
    if isCorrect then stats.currentConsecutiveCorrect + 1 else 0
  let newMaxConsecutiveCorrect :=
    max stats.maxConsecutiveCorrect newCurrentConsecutiveCorrect
  let currentAccuracy := calculateAccuracy { stats with recentAnswers := newRecentAnswers }
  let newBestAccuracy := max stats.bestAccuracy currentAccuracy
  { totalChallenges := stats.totalChallenges + 1
    recentAnswers := newRecentAnswers
    maxConsecutiveCorrect := newMaxConsecutiveCorrect
    currentConsecutiveCorrect := newCurrentConsecutiveCorrect
    bestAccuracy := newBestAccuracy }

/-- Input to the validator: `Partial<GameSettings>` from `gameSettings.ts`.
`none` models an absent field. -/
structure SettingsInput where
  gridSize : Option Int
  showTime : Option Int
  answerTime : Option Int
  numActiveCells : Option Int
  targetConsecutive : Option Int
  deriving DecidableEq, Repr

/-- Defaults from `DEFAULT_SETTINGS` in `gameSettings.ts`. -/
def DEFAULT_SETTINGS : GameSettings :=
  { gridSize := 4
    showTime := 500
    answerTime := 0
    numActiveCells := 5
    targetConsecutive := 20 }

/-- JavaScript `provided || fallback` on an optionally-present integer field:
absent or zero (falsy) selects the fallback. -/
def jsOr (provided : Option Int) (fallback : Int) : Int :=
  match provided with
  | none => fallback
  | some v => if v = 0 then fallback else v

/-- Validator from `validateSettings` in `gameSettings.ts`: each field is
`Math.max(lo, Math.min(hi, provided || default))` with the literal bounds of
the source; in particular `numActiveCells` is clamped into `[1, 64]`
regardless of the grid size. -/
def validateSettings (settings : SettingsInput) : GameSettings :=
  { gridSize := max 2 (min 8 (jsOr settings.gridSize DEFAULT_SETTINGS.gridSize))
    showTime := max 100 (min 10000 (jsOr settings.showTime DEFAULT_SETTINGS.showTime))
    answerTime := max 0 (min 30000 (jsOr settings.answerTime DEFAULT_SETTINGS.answerTime))
    numActiveCells := max 1 (min 64 (jsOr settings.numActiveCells DEFAULT_SETTINGS.numActiveCells))
    targetConsecutive :=
      max 1 (min 100 (jsOr settings.targetConsecutive DEFAULT_SETTINGS.targetConsecutive)) }

/-- Statistics map: `GameStatsMap`, a JavaScript object keyed by fingerprint,
modelled as an association list (real JavaScript objects have unique keys;
lemmas that need uniqueness take it as a `Nodup` hypothesis). -/
abbrev GameStatsMap : Type := List (String × GameStats)

/-- Key lookup in a statistics map (`statsMap[key]`). -/
def lookupKey (key : String) : GameStatsMap → Option GameStats
  | [] => none
  | (k, v) :: rest => if k = key then some v else lookupKey key rest

/-- Key update in a statistics map: `{...statsMap, [key]: value}` on a
JavaScript object (equally, an IndexedDB `put` with `keyPath` the key):
replaces the entry in place when the key is present, otherwise appends it. -/
def insertKey (key : String) (value : GameStats) : GameStatsMap → GameStatsMap
  | [] => [(key, value)]
  | (k, v) :: rest =>
    if k = key then (key, value) :: rest else (k, v) :: insertKey key value rest

/-- Record lookup with default from `getStatsForSettings` in `gameStats.ts`:
`statsMap[key] || initializeStats()`. -/
def getStatsForSettings (statsMap : GameStatsMap) (settings : GameSettings) : GameStats :=
  (lookupKey (generateSettingsKey settings) statsMap).getD initializeStats

/-- Result of `JSON.parse` on an import payload string: either the parsed
statistics map or a parse failure (`JSON.parse` throwing). -/
inductive Payload where
  | ok (statsMap : GameStatsMap)
  | malformed
  deriving DecidableEq, Repr

/-- State of the active storage backend of `UnifiedStatsManager`: after
`init`, every operation takes the web branch (localStorage, whose
`gameStatsMap` slot is `none` when the key is absent) or the PWA branch
(the IndexedDB `stats` object store with its keyed entries). -/
inductive Backend where
  | web (slot : Option GameStatsMap)
  | pwa (entries : GameStatsMap)
  deriving DecidableEq, Repr

/-- Read of the web store from `getStatsFromStorage` in `gameStats.ts`:
parse the stored blob, `{}` when the key is absent. -/
def getStatsFromStorage (slot : Option GameStatsMap) : GameStatsMap :=
  slot.getD []

/-- The per-entry write loop of `PWAStatsManager.importStats`:
`for (const [settingsKey, stats] of Object.entries(statsMap)) await db.saveStats(...)`. -/
def importWrite (st : GameStatsMap) (m : GameStatsMap) : GameStatsMap :=
  m.foldl (fun acc p => insertKey p.1 p.2 acc) st

/-- Facade read `UnifiedStatsManager.getAllStats`: web branch reads the
localStorage blob; PWA branch returns the object store contents keyed by
fingerprint. -/
def getAllStats : Backend → GameStatsMap
  | .web slot => getStatsFromStorage slot
  | .pwa entries => entries

/-- Facade read `UnifiedStatsManager.getStats`: stored record for the
settings fingerprint, or the zeroed record when absent (the
`hasOwnProperty("bestAccuracy")` normalization is the identity on records of
the current shape). -/
def getStats (settings : GameSettings) : Backend → GameStats
  | .web slot => getStatsForSettings (getStatsFromStorage slot) settings
  | .pwa entries =>
    (lookupKey (generateSettingsKey settings) entries).getD initializeStats

/-- Facade `UnifiedStatsManager.exportStats`: `JSON.stringify` of the current
map, which always succeeds and parses back to the same map. -/
def exportStats (b : Backend) : Payload :=
  Payload.ok (getAllStats b)

/-- Facade `UnifiedStatsManager.importStats`: `JSON.parse` first (a throw
leaves the store untouched and surfaces as a failure); on success the web
branch saves the parsed map wholesale (`saveStatsToStorage(statsMap)`), the
PWA branch writes each parsed entry individually. -/
def importStats (payload : Payload) (b : Backend) : Except Unit Unit × Backend :=
  match payload, b with
  | .malformed, b => (Except.error (), b)
  | .ok m, .web _ => (Except.ok (), .web (some m))
  | .ok m, .pwa entries => (Except.ok (), .pwa (importWrite entries m))

/-- Facade `UnifiedStatsManager.clearAllStats`: the web branch removes the
localStorage key; the PWA branch constructs and initializes a fresh
`PWAStatsManager` but performs no store mutation (the source comments that the
clear functionality still needs to be added), so the entries are unchanged. -/
def clearAllStats : Backend → Backend
  | .web _ => .web none
  | .pwa entries => .pwa entries

/-- Well-formedness of a backend state: an IndexedDB object store keyed by
`settingsKey` cannot hold two entries with the same key. -/
def WFBackend : Backend → Prop
  | .web _ => True
  | .pwa entries => (entries.map Prod.fst).Nodup

/-! ### Association-list lemmas -/

theorem lookupKey_insertKey_self (k : String) (v : GameStats) (m : GameStatsMap) :
    lookupKey k (insertKey k v m) = some v := by
  induction m with
  | nil => simp [insertKey, lookupKey]
  | cons p rest ih =>
    obtain ⟨k0, v0⟩ := p
    by_cases h : k0 = k
    · simp [insertKey, lookupKey, h]
    · simp [insertKey, lookupKey, h, ih]

theorem lookupKey_insertKey_ne (k k' : String) (v : GameStats) (m : GameStatsMap)
    (h : k ≠ k') : lookupKey k' (insertKey k v m) = lookupKey k' m := by
  induction m with
  | nil => simp [insertKey, lookupKey, h]
  | cons p rest ih =>
    obtain ⟨k0, v0⟩ := p
    by_cases h0 : k0 = k
    · subst h0
      simp [insertKey, lookupKey, h]
    · simp [insertKey, lookupKey, h0, ih]

theorem lookupKey_eq_none (k : String) (m : GameStatsMap)
    (h : k ∉ m.map Prod.fst) : lookupKey k m = none := by
  induction m with
  | nil => rfl
  | cons p rest ih =>
    obtain ⟨k0, v0⟩ := p
    simp only [List.map_cons, List.mem_cons] at h
    push_neg at h
    have hk : k0 ≠ k := fun hk => h.1 hk.symm
    simp [lookupKey, hk, ih h.2]

theorem lookupKey_importWrite (st m : GameStatsMap) (k : String)
    (hm : (m.map Prod.fst).Nodup) :
    lookupKey k (importWrite st m) =
      match lookupKey k m with
      | some v => some v
      | none => lookupKey k st := by
  induction m generalizing st with
  | nil => simp [importWrite, lookupKey]
  | cons p rest ih =>
    obtain ⟨k0, v0⟩ := p
    simp only [List.map_cons, List.nodup_cons] at hm
    obtain ⟨hk0, hrest⟩ := hm
    show lookupKey k (importWrite (insertKey k0 v0 st) rest) = _
    rw [ih (insertKey k0 v0 st) hrest]
    by_cases h : k0 = k
    · subst h
      rw [lookupKey_eq_none k0 rest hk0]
      simp [lookupKey, lookupKey_insertKey_self]
    · simp [lookupKey, h, lookupKey_insertKey_ne k0 k v0 st h]

/-! ### Sliding-window lemmas -/

theorem recentAnswers_updateStats (s : GameStats) (o : Bool) :
    (updateStats s o).recentAnswers =
      if MAX_RECENT_ANSWERS < (s.recentAnswers ++ [o]).length then (s.recentAnswers ++ [o]).tail
      else s.recentAnswers ++ [o] := rfl

theorem drop_window_step (m : List Bool) (o : Bool) :
    (if 100 < (m.drop (m.length - 100) ++ [o]).length
      then (m.drop (m.length - 100) ++ [o]).tail
      else m.drop (m.length - 100) ++ [o]) =
    (m ++ [o]).drop ((m ++ [o]).length - 100) := by
  have hlen : (m.drop (m.length - 100)).length = m.length - (m.length - 100) :=
    List.length_drop _ _
  have hlapp : ((m ++ [o]).length - 100) = m.length + 1 - 100 := by
    simp [List.length_append]
  by_cases hce : 100 ≤ m.length
  · have hne : m.drop (m.length - 100) ≠ [] := by
      apply List.length_pos.mp
      omega
    have hcond : 100 < (m.drop (m.length - 100) ++ [o]).length := by
      rw [List.length_append]
      simp only [List.length_cons, List.length_nil]
      omega
    rw [if_pos hcond, List.tail_append_singleton_of_ne_nil hne, List.tail_drop, hlapp,
      List.drop_append_of_le_length (by omega)]
    rw [show m.length - 100 + 1 = m.length + 1 - 100 by omega]
  · have h0 : m.length - 100 = 0 := by omega
    rw [h0, List.drop_zero]
    have hcond : ¬ 100 < (m ++ [o]).length := by
      rw [List.length_append]
      simp only [List.length_cons, List.length_nil]
      omega
    rw [if_neg hcond, hlapp]
    have h1 : m.length + 1 - 100 = 0 := by omega
    rw [h1, List.drop_zero]

theorem recentAnswers_foldl (os : List Bool) (s : GameStats)
    (h : s.recentAnswers.length ≤ 100) :
    (os.foldl updateStats s).recentAnswers =
      (s.recentAnswers ++ os).drop ((s.recentAnswers ++ os).length - 100) := by
  induction os using List.reverseRecOn with
  | nil =>
    simp only [List.foldl_nil, List.append_nil]
    rw [Nat.sub_eq_zero_of_le h, List.drop_zero]
  | append_singleton os o ih =>
    rw [List.foldl_append, List.foldl_cons, List.foldl_nil, recentAnswers_updateStats, ih,
      show s.recentAnswers ++ (os ++ [o]) = (s.recentAnswers ++ os) ++ [o] from
        (List.append_assoc _ _ _).symm]
    simp only [MAX_RECENT_ANSWERS]
    exact drop_window_step (s.recentAnswers ++ os) o

/-! ### Monotonicity lemmas -/

theorem updateStats_best_le (s : GameStats) (b : Bool) :
    s.bestAccuracy ≤ (updateStats s b).bestAccuracy :=
  le_max_left _ _

theorem updateStats_maxcc_le (s : GameStats) (b : Bool) :
    s.maxConsecutiveCorrect ≤ (updateStats s b).maxConsecutiveCorrect :=
  le_max_left _ _

theorem foldl_updateStats_best_le (os : List Bool) (s : GameStats) :
    s.bestAccuracy ≤ (os.foldl updateStats s).bestAccuracy := by
  induction os generalizing s with
  | nil => exact le_refl _
  | cons o rest ih =>
    exact le_trans (updateStats_best_le s o) (ih (updateStats s o))

theorem foldl_updateStats_maxcc_le (os : List Bool) (s : GameStats) :
    s.maxConsecutiveCorrect ≤ (os.foldl updateStats s).maxConsecutiveCorrect := by
  induction os generalizing s with
  | nil => exact le_refl _
  | cons o rest ih =>
    exact le_trans (updateStats_maxcc_le s o) (ih (updateStats s o))

/-! ### Claims -/

/-- C1 (counterexample): the spec scenario is wrong about `bestAccuracy`.
Starting from the empty record and applying the update operation over the
outcomes `[true, true, false, true]`, the code yields `bestAccuracy = 100`
(the window accuracy is already 100 after the first correct answer and
`bestAccuracy` is a running maximum), not 75 as the claim states. -/
theorem scenario_bestAccuracy_counterexample :
    ([true, true, false, true].foldl updateStats initializeStats).bestAccuracy = 100 ∧
    ([true, true, false, true].foldl updateStats initializeStats).bestAccuracy ≠ 75 := by
  constructor
  · rfl
  · decide

/-- C1 (amended): starting from the empty statistics record, the outcome
sequence `[true, true, false, true]` yields `totalChallenges = 4`,
`recentAnswers = [true, true, false, true]`, `currentConsecutiveCorrect = 1`,
`maxConsecutiveCorrect = 2`, and `bestAccuracy = 100`. -/
theorem scenario_four_outcomes :
    [true, true, false, true].foldl updateStats initializeStats =
      { totalChallenges := 4
        recentAnswers := [true, true, false, true]
        maxConsecutiveCorrect := 2
        currentConsecutiveCorrect := 1
        bestAccuracy := 100 } := by
  decide

/-- C2 (counterexample): `validateSettings` does not keep `numActiveCells`
within `[1, gridSize²]`: for the input `{gridSize: 2, numActiveCells: 50}` it
returns `gridSize = 2` and `numActiveCells = 50 > 2² = 4`, because the code
clamps `numActiveCells` against the fixed bound 64. -/
theorem validateSettings_gridSquare_counterexample :
    (validateSettings ⟨some 2, none, none, some 50, none⟩).gridSize = 2 ∧
    (validateSettings ⟨some 2, none, none, some 50, none⟩).numActiveCells = 50 ∧
    ¬ (validateSettings ⟨some 2, none, none, some 50, none⟩).numActiveCells ≤
        (validateSettings ⟨some 2, none, none, some 50, none⟩).gridSize ^ 2 := by
  refine ⟨rfl, rfl, ?_⟩
  decide

/-- C2 (amended): for every (possibly partial) settings input,
`validateSettings` returns a fully populated record with
`gridSize ∈ [2, 8]`, `showTime ∈ [100, 10000]`, `answerTime ∈ [0, 30000]`,
`numActiveCells ∈ [1, 64]` (the fixed maximum `8² = 64`, not the returned
`gridSize²`), and `targetConsecutive ∈ [1, 100]`; it never raises (it is a
total function). -/
theorem validateSettings_ranges (p : SettingsInput) :
    2 ≤ (validateSettings p).gridSize ∧ (validateSettings p).gridSize ≤ 8 ∧
    100 ≤ (validateSettings p).showTime ∧ (validateSettings p).showTime ≤ 10000 ∧
    0 ≤ (validateSettings p).answerTime ∧ (validateSettings p).answerTime ≤ 30000 ∧
    1 ≤ (validateSettings p).numActiveCells ∧ (validateSettings p).numActiveCells ≤ 64 ∧
    1 ≤ (validateSettings p).targetConsecutive ∧ (validateSettings p).targetConsecutive ≤ 100 := by
  simp only [validateSettings]
  refine ⟨?_, ?_, ?_, ?_, ?_, ?_, ?_, ?_, ?_, ?_⟩ <;> omega

/-- C6: the update operation is monotonic in `bestAccuracy` and
`maxConsecutiveCorrect`: one update never decreases either field, and hence
neither does any sequence of updates. -/
theorem updateStats_monotone (s : GameStats) (b : Bool) (os : List Bool) :
    (s.bestAccuracy ≤ (updateStats s b).bestAccuracy ∧
      s.maxConsecutiveCorrect ≤ (updateStats s b).maxConsecutiveCorrect) ∧
    (s.bestAccuracy ≤ (os.foldl updateStats s).bestAccuracy ∧
      s.maxConsecutiveCorrect ≤ (os.foldl updateStats s).maxConsecutiveCorrect) :=
  ⟨⟨updateStats_best_le s b, updateStats_maxcc_le s b⟩,
    ⟨foldl_updateStats_best_le os s, foldl_updateStats_maxcc_le os s⟩⟩

/-- C9: a malformed import payload makes `importStats` fail (the `JSON.parse`
throw happens before any write) and leaves the stored statistics map
completely untouched, in both backend modes. -/
theorem importStats_malformed_untouched (b : Backend) :
    (importStats Payload.malformed b).1 = Except.error () ∧
    (importStats Payload.malformed b).2 = b := by
  cases b <;> exact ⟨rfl, rfl⟩

/-- C10: one update changes the `recentAnswers` length by at most one (it is
either unchanged or grows by one), and on an input whose window already
exceeds 100 entries (for example an imported oversized record) the returned
length equals the input length exactly — one outcome appended, exactly one
entry evicted — so the 100-entry bound is never restored by trimming. -/
theorem updateStats_length_change (s : GameStats) (b : Bool) :
    ((updateStats s b).recentAnswers.length = s.recentAnswers.length ∨
      (updateStats s b).recentAnswers.length = s.recentAnswers.length + 1) ∧
    (100 < s.recentAnswers.length →
      (updateStats s b).recentAnswers.length = s.recentAnswers.length) := by
  rw [recentAnswers_updateStats]
  have hlb : (s.recentAnswers ++ [b]).length = s.recentAnswers.length + 1 := by
    simp
  by_cases hc : MAX_RECENT_ANSWERS < (s.recentAnswers ++ [b]).length
  · rw [if_pos hc, List.length_tail, hlb]
    rw [hlb] at hc
    simp only [MAX_RECENT_ANSWERS] at hc
    exact ⟨Or.inl (by omega), fun _ => by omega⟩
  · rw [if_neg hc, hlb]
    rw [hlb] at hc
    simp only [MAX_RECENT_ANSWERS] at hc
    exact ⟨Or.inr rfl, fun h => by omega⟩

/-- C10 (witness): on a record whose window has 101 entries, one update keeps
the length at exactly 101. -/
theorem updateStats_length_change_witness :
    (updateStats ⟨0, List.replicate 101 true, 0, 0, 0⟩ false).recentAnswers.length =
      (⟨0, List.replicate 101 true, 0, 0, 0⟩ : GameStats).recentAnswers.length :=
  (updateStats_length_change ⟨0, List.replicate 101 true, 0, 0, 0⟩ false).2 (by simp)

/-- C3 (code bug): after `clearAllStats`, the web backend is indeed empty
(`getAllStats` yields the empty map and `getStats` yields the zeroed record
for any settings), but in PWA mode `clearAllStats` performs no store
operation — the source only constructs a fresh manager and comments that
clear functionality still needs to be added — so a nonempty store is returned
unchanged by `getAllStats`. -/
theorem clearAllStats_behavior :
    (∀ slot : Option GameStatsMap, getAllStats (clearAllStats (Backend.web slot)) = []) ∧
    (∀ (slot : Option GameStatsMap) (settings : GameSettings),
      getStats settings (clearAllStats (Backend.web slot)) = initializeStats) ∧
    getAllStats (clearAllStats (Backend.pwa [("4-500-0-5", ⟨1, [true], 1, 1, 100⟩)])) =
      [("4-500-0-5", ⟨1, [true], 1, 1, 100⟩)] :=
  ⟨fun _ => rfl, fun _ _ => rfl, rfl⟩

/-- C4 (counterexample): in web mode `importStats` does not preserve
fingerprints absent from the payload: importing a payload that only contains
key `5-500-0-5` into a store holding key `4-500-0-5` erases the stored record
of `4-500-0-5` (the web branch saves the parsed map wholesale). -/
theorem importStats_web_drops_absent_key :
    lookupKey "4-500-0-5"
      (getAllStats (Backend.web (some [("4-500-0-5", ⟨2, [true, true], 2, 2, 100⟩)]))) =
      some ⟨2, [true, true], 2, 2, 100⟩ ∧
    lookupKey "4-500-0-5"
      (getAllStats (importStats (Payload.ok [("5-500-0-5", ⟨1, [true], 1, 1, 100⟩)])
        (Backend.web (some [("4-500-0-5", ⟨2, [true, true], 2, 2, 100⟩)]))).2) = none := by
  constructor
  · decide
  · decide

/-- C4 (amended): `importStats` on a parseable payload succeeds in both modes;
in PWA mode it overwrites per fingerprint (a fingerprint present in the
payload ends holding the payload record, one absent from the payload keeps its
pre-existing record), but in web mode the stored map is replaced wholesale by
the payload, so pre-existing fingerprints absent from the payload are removed
rather than kept. -/
theorem importStats_overwrite_semantics (entries m : GameStatsMap)
    (slot : Option GameStatsMap) (k : String) (hm : (m.map Prod.fst).Nodup) :
    ((importStats (Payload.ok m) (Backend.pwa entries)).1 = Except.ok () ∧
      lookupKey k (getAllStats (importStats (Payload.ok m) (Backend.pwa entries)).2) =
        match lookupKey k m with
        | some v => some v
        | none => lookupKey k (getAllStats (Backend.pwa entries))) ∧
    ((importStats (Payload.ok m) (Backend.web slot)).1 = Except.ok () ∧
      getAllStats (importStats (Payload.ok m) (Backend.web slot)).2 = m) := by
  refine ⟨⟨rfl, ?_⟩, rfl, rfl⟩
  exact lookupKey_importWrite entries m k hm

/-- C4 (witness): the amended import semantics at a concrete store and
payload. -/
theorem importStats_overwrite_semantics_witness :
    ((importStats (Payload.ok [("b", initializeStats)])
        (Backend.pwa [("a", initializeStats)])).1 = Except.ok () ∧
      lookupKey "a" (getAllStats (importStats (Payload.ok [("b", initializeStats)])
        (Backend.pwa [("a", initializeStats)])).2) =
        match lookupKey "a" [("b", initializeStats)] with
        | some v => some v
        | none => lookupKey "a" (getAllStats (Backend.pwa [("a", initializeStats)]))) ∧
    ((importStats (Payload.ok [("b", initializeStats)]) (Backend.web (some []))).1 =
        Except.ok () ∧
      getAllStats (importStats (Payload.ok [("b", initializeStats)])
        (Backend.web (some []))).2 = [("b", initializeStats)]) :=
  importStats_overwrite_semantics [("a", initializeStats)] [("b", initializeStats)]
    (some []) "a" (by decide)

/-- C5: every record reachable from the empty record by updates has a window
of at most 100 answers, and after exactly 101 updates the first recorded
answer has been evicted: the window is exactly the last 100 outcomes in
order. -/
theorem recentAnswers_bound_and_eviction :
    (∀ os : List Bool, (os.foldl updateStats initializeStats).recentAnswers.length ≤ 100) ∧
    (∀ os : List Bool, os.length = 101 →
      (os.foldl updateStats initializeStats).recentAnswers = os.drop 1 ∧
      (os.foldl updateStats initializeStats).recentAnswers.length = 100) := by
  have key : ∀ os : List Bool,
      (os.foldl updateStats initializeStats).recentAnswers = os.drop (os.length - 100) := by
    intro os
    have h := recentAnswers_foldl os initializeStats (by simp [initializeStats])
    simpa [initializeStats] using h
  constructor
  · intro os
    rw [key os, List.length_drop]
    omega
  · intro os h101
    rw [key os]
    constructor
    · rw [h101]
    · rw [List.length_drop]
      omega

/-- C5 (witness): 101 updates from the empty record leave a window of length
at most 100, namely the last 100 of the 101 outcomes. -/
theorem recentAnswers_bound_and_eviction_witness :
    ((List.replicate 101 true).foldl updateStats initializeStats).recentAnswers.length ≤ 100 ∧
    ((List.replicate 101 true).foldl updateStats initializeStats).recentAnswers =
      (List.replicate 101 true).drop 1 :=
  ⟨recentAnswers_bound_and_eviction.1 (List.replicate 101 true),
    (recentAnswers_bound_and_eviction.2 (List.replicate 101 true) (by simp)).1⟩

/-! ### Fingerprint lemmas -/

theorem string_append_right_cancel (s t r : String) (h : s ++ r = t ++ r) : s = t := by
  obtain ⟨sd⟩ := s
  obtain ⟨td⟩ := t
  obtain ⟨rd⟩ := r
  have hd : sd ++ rd = td ++ rd := congrArg String.data h
  exact congrArg String.mk (List.append_cancel_right hd)

theorem int_toString_inj_on_grid (a b : Int) (ha2 : 2 ≤ a) (ha8 : a ≤ 8) (hb2 : 2 ≤ b)
    (hb8 : b ≤ 8) (h : toString a = toString b) : a = b := by
  interval_cases a <;> interval_cases b <;> first | rfl | (exact absurd h (by decide))

/-- C7: the configuration fingerprint depends only on `gridSize`, `showTime`,
`answerTime` and `numActiveCells`: any two settings records that agree on
those four fields (so, in particular, differ only in `targetConsecutive`)
produce the same fingerprint, while two settings records with in-range grid
sizes (`gridSize ∈ [2, 8]`, the declared range) that differ in `gridSize` and
agree on the other fingerprint fields produce different fingerprints. -/
theorem generateSettingsKey_fingerprint :
    (∀ a b : GameSettings, a.gridSize = b.gridSize → a.showTime = b.showTime →
      a.answerTime = b.answerTime → a.numActiveCells = b.numActiveCells →
      generateSettingsKey a = generateSettingsKey b) ∧
    (∀ a b : GameSettings, 2 ≤ a.gridSize → a.gridSize ≤ 8 → 2 ≤ b.gridSize →
      b.gridSize ≤ 8 → a.gridSize ≠ b.gridSize → a.showTime = b.showTime →
      a.answerTime = b.answerTime → a.numActiveCells = b.numActiveCells →
      generateSettingsKey a ≠ generateSettingsKey b) := by
  constructor
  · intro a b h1 h2 h3 h4
    simp only [generateSettingsKey, h1, h2, h3, h4]
  · intro a b ha2 ha8 hb2 hb8 hne h2 h3 h4 heq
    apply hne
    simp only [generateSettingsKey, h2, h3, h4] at heq
    have e1 := string_append_right_cancel _ _ _ heq
    have e2 := string_append_right_cancel _ _ _ e1
    have e3 := string_append_right_cancel _ _ _ e2
    have e4 := string_append_right_cancel _ _ _ e3
    have e5 := string_append_right_cancel _ _ _ e4
    have e6 := string_append_right_cancel _ _ _ e5
    exact int_toString_inj_on_grid a.gridSize b.gridSize ha2 ha8 hb2 hb8 e6

/-- C7 (witness): settings differing only in `targetConsecutive` share a
fingerprint; settings differing in `gridSize` (4 vs 5) do not. -/
theorem generateSettingsKey_fingerprint_witness :
    generateSettingsKey ⟨4, 500, 0, 5, 20⟩ = generateSettingsKey ⟨4, 500, 0, 5, 99⟩ ∧
    generateSettingsKey ⟨4, 500, 0, 5, 20⟩ ≠ generateSettingsKey ⟨5, 500, 0, 5, 20⟩ :=
  ⟨generateSettingsKey_fingerprint.1 _ _ rfl rfl rfl rfl,
    generateSettingsKey_fingerprint.2 _ _ (by decide) (by decide) (by decide) (by decide)
      (by decide) rfl rfl rfl⟩

/-- C8: export/import round trip: importing the payload produced by
`exportStats` succeeds and leaves the backend holding a statistics map equal
by value to the original (same stored record under every fingerprint; key
order plays no role in the lookup-level comparison), in both backend modes. -/
theorem export_import_roundtrip (b : Backend) (k : String) (h : WFBackend b) :
    (importStats (exportStats b) b).1 = Except.ok () ∧
    lookupKey k (getAllStats (importStats (exportStats b) b).2) =
      lookupKey k (getAllStats b) := by
  cases b with
  | web slot =>
    refine ⟨rfl, ?_⟩
    cases slot <;> rfl
  | pwa entries =>
    refine ⟨rfl, ?_⟩
    show lookupKey k (importWrite entries entries) = lookupKey k entries
    rw [lookupKey_importWrite entries entries k h]
    cases hx : lookupKey k entries <;> rfl

/-- C8 (witness): the round trip at a concrete one-entry PWA store. -/
theorem export_import_roundtrip_witness :
    (importStats (exportStats (Backend.pwa [("4-500-0-5", initializeStats)]))
      (Backend.pwa [("4-500-0-5", initializeStats)])).1 = Except.ok () ∧
    lookupKey "4-500-0-5" (getAllStats (importStats
      (exportStats (Backend.pwa [("4-500-0-5", initializeStats)]))
      (Backend.pwa [("4-500-0-5", initializeStats)])).2) =
      lookupKey "4-500-0-5" (getAllStats (Backend.pwa [("4-500-0-5", initializeStats)])) :=
  export_import_roundtrip (Backend.pwa [("4-500-0-5", initializeStats)]) "4-500-0-5"
    (List.nodup_singleton _)
